import Mathlib

/-!
Verification of the `excel2sql` migration tool (`src/utils.rs`, `src/error.rs`)
against its natural-language specification.

The program's own code (`Table`, `make_insert_sql`, `check_table_exists`,
`make_django_style_table_name`, `import_table_to_database`, `parse_excel`) is
embedded shallowly below.  The two external collaborators are abstracted at
their call boundary, faithfully to the observations the program makes of them:

* `calamine` (spreadsheet library): a `Range` is modelled by the outcome of
  `RangeDeserializerBuilder::from_range` on it — either a build error, or one
  deserialization result per row of the stored range (header row included);
  a workbook is its sheet-name list plus the `worksheet_range` lookup.
* `mysql`: a `Pool` is modelled by the outcome of `prep_exec` / `first_exec`
  per SQL text.  `mysql::Error` keeps its `MySqlError(state, message, code)`
  case, with every other case collapsed to a message.

An `f64` cell payload is abstracted by its Rust `Display` rendering (a decimal
literal string), which is the only observation this program ever makes of it;
`str::to_lowercase` is modelled as ASCII lowercasing, with which it agrees on
all ASCII input.
-/

namespace ExcelToSql

/-- Payload aliases so that constructor names below can keep the Rust
variant names (`DataType::String`, `DataType::Int`, ...) without shadowing
the Lean types of the payloads. -/
abbrev RustStr := String

abbrev RustI64 := Int

abbrev RustBool := Bool

/-- `calamine::DataType`: the typed value of one spreadsheet cell.
The `Float` and `DateTime` payloads are `f64` values abstracted by their
Rust `Display` rendering (see the file header). -/
inductive DataType where
  | Int (v : RustI64)
  | Float (v : RustStr)
  | String (v : RustStr)
  | Bool (v : RustBool)
  | DateTime (v : RustStr)
  | Error (v : RustStr)
  | Empty
deriving DecidableEq, Repr

deriving instance DecidableEq for Except

/-- `calamine::Error`, observed only as a displayable error value. -/
abbrev CalaError := String

/-- One row as produced by the range deserializer: either a per-row
deserialization failure or the row's cell values. -/
abbrev RowResult := Except CalaError (List DataType)

/-- `calamine::Range<DataType>` as this program observes it: the outcome of
building a deserializing iterator over it (`from_range`), namely either a
build failure or the per-row results over the full range, header row
included. -/
structure Range where
  buildErr : Option CalaError
  rows : List RowResult
deriving DecidableEq, Repr

/-- `RangeDeserializerBuilder::new()...from_range(&range)`: fails iff the
range is malformed, otherwise yields the per-row deserialization results. -/
def from_range (r : Range) : Except CalaError (List RowResult) :=
  match r.buildErr with
  | some e => Except.error e
  | none => Except.ok r.rows

/-- `struct Table` from `src/utils.rs`. -/
structure Table where
  name : String
  fields : List String
  range : Range
deriving DecidableEq, Repr

/-- Rust `char::is_ascii`: the code point is at most `0x7F`. -/
def charIsAscii (c : Char) : Bool :=
  c.toNat ≤ 127

/-- The header-cell test of `Table::new`: a `DataType::String` cell yields
its text, every other variant is dropped. -/
def textCell : DataType → Option String
  | DataType.String f => some f
  | _ => none

/-- `Table::new(table_name, range)` from `src/utils.rs`: reads the first row
of the range (headerless deserialization), collects its `String` cells into
`fields` in order, and keeps of `table_name` exactly the ASCII characters
that are not `'('` or `')'`. -/
def Table.new (table_name : String) (range : Range) : Except CalaError Table :=
  match from_range range with
  | Except.error e => Except.error e
  | Except.ok rows =>
    match rows.head? with
    | some (Except.error e) => Except.error e
    | some (Except.ok row) =>
      Except.ok
        { name := String.mk (table_name.toList.filter
            (fun i => charIsAscii i && i ≠ '(' && i ≠ ')'))
          fields := row.filterMap textCell
          range := range }
    | none =>
      Except.ok
        { name := String.mk (table_name.toList.filter
            (fun i => charIsAscii i && i ≠ '(' && i ≠ ')'))
          fields := []
          range := range }

/-- `Table::iter_rows(&self, skip)` from `src/utils.rs`: builds a fresh
deserializing iterator over the stored range and drops its first `skip`
elements. -/
def Table.iter_rows (t : Table) (skip : Nat) : Except CalaError (List RowResult) :=
  match from_range t.range with
  | Except.error e => Except.error e
  | Except.ok iter => Except.ok (iter.drop skip)

/-- `Table::to_django_style_fields(&mut self)` from `src/utils.rs`: every
field other than the literal `id` is rewritten to `c_` followed by the
original field. -/
def Table.to_django_style_fields (t : Table) : Table :=
  { t with fields := t.fields.map (fun f => if f ≠ "id" then "c_" ++ f else f) }

/-- The backtick-quoted field list of `make_insert_sql`: each field wrapped
in backticks, with `", "` after every field but the last. -/
def quoteFields : List String → String
  | [] => ""
  | [f] => "`" ++ f ++ "`"
  | f :: g :: rest => "`" ++ f ++ "`" ++ ", " ++ quoteFields (g :: rest)

/-- The per-cell literal of the `match` in `make_insert_sql`. -/
def renderCell : DataType → String
  | DataType.String v => "\"" ++ v ++ "\""
  | DataType.Bool v => if v then "1" else "0"
  | DataType.Int v => toString v
  | DataType.Float v => v
  | _ => "null"

/-- The value list of `make_insert_sql`: each cell rendered by `renderCell`,
with `", "` after every value but the last. -/
def renderRow : List DataType → String
  | [] => ""
  | [v] => renderCell v
  | v :: w :: rest => renderCell v ++ ", " ++ renderRow (w :: rest)

/-- `make_insert_sql(table_name, fields, row)` from `src/utils.rs`. -/
def make_insert_sql (table_name : String) (fields : List String)
    (row : List DataType) : String :=
  "INSERT INTO `" ++ table_name ++ "` (" ++ quoteFields fields
    ++ ") VALUES (" ++ renderRow row ++ ");"

/-- `mysql::Error` (`MySQLError` in `src/error.rs`): either a server-side
`MySqlError` with its `state`, `message` and `code`, or any other failure
(IO, driver, ...) collapsed to its message. -/
inductive MySQLError where
  | server (state : String) (message : String) (code : Nat)
  | other (e : String)
deriving DecidableEq, Repr

/-- The unified `Error` from `src/error.rs`: a closed union of the database
error and the spreadsheet error. -/
inductive Error where
  | MySQLError (e : ExcelToSql.MySQLError)
  | CalaError (e : ExcelToSql.CalaError)
deriving DecidableEq, Repr

/-- `mysql::Pool` as this program observes it: the outcome of `prep_exec`
(statement execution) and `first_exec` (zero-or-one row query) on each SQL
text. -/
structure Pool where
  prep_exec : String → Except MySQLError Unit
  first_exec : String → Except MySQLError (Option (List DataType))

/-- `check_table_exists(table_name, pool)` from `src/utils.rs`: runs
`SHOW TABLES LIKE "<name>"`; an empty result is turned into the sentinel
`MySqlError` with state `-1`, code `99` and a message naming the table; a
query failure propagates. -/
def check_table_exists (table_name : String) (pool : Pool) :
    Except MySQLError Unit :=
  match pool.first_exec ("SHOW TABLES LIKE \"" ++ table_name ++ "\"") with
  | Except.error e => Except.error e
  | Except.ok none =>
    Except.error (MySQLError.server "-1"
      ("Table '" ++ table_name ++ "' doesn't exist") 99)
  | Except.ok (some _) => Except.ok ()

/-- Split a character list at every occurrence of a separator character
(the groups between separators, in order). -/
def splitAtChar (sep : Char) : List Char → List (List Char)
  | [] => [[]]
  | c :: rest =>
    match splitAtChar sep rest with
    | [] => if c = sep then [[], []] else [[c]]
    | g :: gs => if c = sep then [] :: g :: gs else (c :: g) :: gs

/-- The components of a path in Rust's `std::path` sense: split on `/`,
with empty components and bare `.` components dropped. -/
def pathComponents (p : String) : List String :=
  ((splitAtChar '/' p.toList).map String.mk).filter
    (fun s => s ≠ "" && s ≠ ".")

/-- Rust `Path::file_name`: the final path component, unless the path is
empty or a root or ends in `..`. -/
def pathFileName (p : String) : Option String :=
  match (pathComponents p).getLast? with
  | none => none
  | some s => if s = ".." then none else some s

/-- Rust's stem rule on a file name: the portion before the final `.`,
except that a name with no `.`, or with a leading `.` and no other `.`,
is its own stem. -/
def stemOfFileName (name : String) : String :=
  match (name.toList.reverse).dropWhile (fun c => c ≠ '.') with
  | [] => name
  | _ :: pre => if pre = [] then name else String.mk pre.reverse

/-- Rust `Path::file_stem`. -/
def pathFileStem (p : String) : Option String :=
  (pathFileName p).map stemOfFileName

/-- Rust `str::to_lowercase`, restricted to the ASCII mapping (see the file
header). -/
def strToLowercase (s : String) : String :=
  String.mk (s.toList.map Char.toLower)

/-- `make_django_style_table_name(filepath, table_name)` from
`src/utils.rs`: the file stem of `filepath` (empty when absent), an
underscore, then the lowercased `table_name`. -/
def make_django_style_table_name (filepath : String) (table_name : String) :
    String :=
  let file_stem := (pathFileStem filepath).getD ""
  file_stem ++ "_" ++ strToLowercase table_name

/-- The CLI options struct `Opts` from `src/utils.rs` (only the fields that
the table-loading path reads). -/
structure Opts where
  excel : String
  clear : Bool
  skip : Nat
  django_style : Bool
deriving DecidableEq, Repr

/-- The effective table name computed at the top of
`import_table_to_database`. -/
def resolvedTableName (opts : Opts) (table : Table) : String :=
  if opts.django_style then
    make_django_style_table_name opts.excel table.name
  else
    table.name

/-- The row loop of `import_table_to_database`: a row that failed to
deserialize is skipped with a warning; a deserialized row increments the
counter and executes its INSERT, whose failure aborts the loop. -/
def run_insert_rows (pool : Pool) (table_name : String)
    (fields : List String) (count : Nat) :
    List RowResult → Except MySQLError Nat
  | [] => Except.ok count
  | Except.error _ :: rest => run_insert_rows pool table_name fields count rest
  | Except.ok r :: rest =>
    match pool.prep_exec (make_insert_sql table_name fields r) with
    | Except.error e => Except.error e
    | Except.ok _ => run_insert_rows pool table_name fields (count + 1) rest

/-- `import_table_to_database(opts, pool, table)` from `src/utils.rs`. -/
def import_table_to_database (opts : Opts) (pool : Pool) (table : Table) :
    Except Error (Nat × String) :=
  let table_name := resolvedTableName opts table
  match check_table_exists table_name pool with
  | Except.error e => Except.error (Error.MySQLError e)
  | Except.ok _ =>
    match (if opts.clear then
             pool.prep_exec ("DELETE FROM " ++ table_name)
           else Except.ok ()) with
    | Except.error e => Except.error (Error.MySQLError e)
    | Except.ok _ =>
      match table.iter_rows opts.skip with
      | Except.error e => Except.error (Error.CalaError e)
      | Except.ok rows =>
        match run_insert_rows pool table_name table.fields 0 rows with
        | Except.error e => Except.error (Error.MySQLError e)
        | Except.ok count => Except.ok (count, table_name)

/-- An open `Xlsx` workbook as this program observes it: the sheet-name
list, and per sheet name the `worksheet_range` outcome (`none` when the
sheet is absent, `some (error e)` when its range fails to resolve). -/
structure Workbook where
  sheet_names : List String
  worksheet_range : String → Option (Except CalaError Range)

/-- The sheet loop of `parse_excel`: a sheet whose range resolves is handed
to `Table::new` (whose failure aborts the parse); any other sheet is
skipped with a warning. -/
def parseSheets (wb : Workbook) : List String → Except CalaError (List Table)
  | [] => Except.ok []
  | s :: rest =>
    match wb.worksheet_range s with
    | some (Except.ok range) =>
      match Table.new s range with
      | Except.error e => Except.error e
      | Except.ok t =>
        match parseSheets wb rest with
        | Except.error e => Except.error e
        | Except.ok ts => Except.ok (t :: ts)
    | _ => parseSheets wb rest

/-- `parse_excel(filepath)` from `src/utils.rs`, with the filesystem
abstracted as the `open_workbook` outcome per path. -/
def parse_excel (open_workbook : String → Except CalaError Workbook)
    (filepath : String) : Except CalaError (List Table) :=
  match open_workbook filepath with
  | Except.error e => Except.error e
  | Except.ok workbook => parseSheets workbook workbook.sheet_names

/-- The range a sheet name resolves to, when `worksheet_range` returns
`Some(Ok(range))`. -/
def resolvedRange (wb : Workbook) (s : String) : Option Range :=
  match wb.worksheet_range s with
  | some (Except.ok range) => some range
  | _ => none

/-- The first row of cells of a range (empty when the range has no rows or
its first row failed to deserialize). -/
def firstRowCells (r : Range) : List DataType :=
  match r.rows.head? with
  | some (Except.ok row) => row
  | _ => []

/-- Whether a deserialization result is a success. -/
def rowOk : RowResult → Bool
  | Except.ok _ => true
  | Except.error _ => false

/-- `Range::empty()` as used by the repository's tests. -/
def emptyRange : Range :=
  { buildErr := none, rows := [] }

/-!  Theorems.  -/

/-- The tail of a separated join: a separator before each element. -/
def tailJoin (sep : String) : List String → String
  | [] => ""
  | a :: as => sep ++ a ++ tailJoin sep as

theorem intercalate_go_eq (sep : String) :
    ∀ (as : List String) (acc : String),
      String.intercalate.go acc sep as = acc ++ tailJoin sep as
  | [], acc => by simp [String.intercalate.go, tailJoin]
  | a :: as, acc => by
    rw [String.intercalate.go, intercalate_go_eq sep as (acc ++ sep ++ a)]
    simp [tailJoin, String.append_assoc]

theorem intercalate_cons (sep a : String) (as : List String) :
    String.intercalate sep (a :: as) = a ++ tailJoin sep as := by
  rw [String.intercalate, intercalate_go_eq]

theorem quoteFields_eq_intercalate :
    ∀ fs, quoteFields fs
      = String.intercalate ", " (fs.map (fun f => "`" ++ f ++ "`"))
  | [] => by simp [quoteFields, String.intercalate]
  | [f] => by simp [quoteFields, intercalate_cons, tailJoin]
  | f :: g :: rest => by
    rw [quoteFields, quoteFields_eq_intercalate (g :: rest)]
    simp only [List.map_cons, intercalate_cons, tailJoin]
    simp only [String.append_assoc]

theorem renderRow_eq_intercalate :
    ∀ r, renderRow r = String.intercalate ", " (r.map renderCell)
  | [] => by simp [renderRow, String.intercalate]
  | [v] => by simp [renderRow, intercalate_cons, tailJoin]
  | v :: w :: rest => by
    rw [renderRow, renderRow_eq_intercalate (w :: rest)]
    simp only [List.map_cons, intercalate_cons, tailJoin]
    simp only [String.append_assoc]

/-- C1: `make_insert_sql` emits exactly
``INSERT INTO `t` (`f1`, `f2`, ...) VALUES (v1, v2, ...);`` with the field
list backtick-quoted and comma-separated and each value rendered by
variant — Text double-quoted, Boolean as 1/0, Integer and Float as decimal
literals, anything else as the bare literal `null` — and on
`("T", [id,name,age], [Integer 1, Text "Tom", Integer 12])` returns exactly
the example string of the specification. -/
theorem make_insert_sql_spec :
    (∀ (t : String) (fs : List String) (r : List DataType),
      make_insert_sql t fs r =
        "INSERT INTO `" ++ t ++ "` ("
          ++ String.intercalate ", " (fs.map (fun f => "`" ++ f ++ "`"))
          ++ ") VALUES ("
          ++ String.intercalate ", " (r.map renderCell) ++ ");")
    ∧ (∀ v, renderCell (DataType.String v) = "\"" ++ v ++ "\"")
    ∧ renderCell (DataType.Bool true) = "1"
    ∧ renderCell (DataType.Bool false) = "0"
    ∧ (∀ v, renderCell (DataType.Int v) = toString v)
    ∧ (∀ v, renderCell (DataType.Float v) = v)
    ∧ (∀ v, renderCell (DataType.DateTime v) = "null")
    ∧ (∀ v, renderCell (DataType.Error v) = "null")
    ∧ renderCell DataType.Empty = "null"
    ∧ make_insert_sql "T" ["id", "name", "age"]
        [DataType.Int 1, DataType.String "Tom", DataType.Int 12]
      = "INSERT INTO `T` (`id`, `name`, `age`) VALUES (1, \"Tom\", 12);" := by
  refine ⟨?_, fun v => rfl, rfl, rfl, fun v => rfl, fun v => rfl,
    fun v => rfl, fun v => rfl, rfl, by decide⟩
  intro t fs r
  rw [make_insert_sql, quoteFields_eq_intercalate, renderRow_eq_intercalate]

/-- C2: for a table whose stored range holds `R` rows (header included),
`iter_rows skip` builds a fresh iterator over the full range, drops the
first `skip` elements, and yields exactly `R - skip` (truncated at zero)
elements, the `i`-th of which is the `(skip + i)`-th element of
`iter_rows 0`. -/
theorem iter_rows_skip_spec (t : Table) (skip : Nat) (rows : List RowResult)
    (h : t.iter_rows skip = Except.ok rows) :
    ∃ all, t.iter_rows 0 = Except.ok all
      ∧ rows.length = all.length - skip
      ∧ ∀ i : Nat, rows[i]? = all[skip + i]? := by
  rw [Table.iter_rows] at h
  cases hfr : from_range t.range with
  | error e => rw [hfr] at h; exact absurd h (by simp)
  | ok all =>
    rw [hfr] at h
    have hrows : all.drop skip = rows := by
      injection h
    refine ⟨all, ?_, ?_, ?_⟩
    · rw [Table.iter_rows, hfr]
      simp
    · rw [← hrows, List.length_drop]
    · intro i
      rw [← hrows, List.getElem?_drop]

/-- A concrete three-row table for instantiating `iter_rows_skip_spec`. -/
def skipWitnessTable : Table :=
  { name := "w"
    fields := ["a"]
    range :=
      { buildErr := none
        rows := [Except.ok [DataType.Int 1], Except.ok [DataType.Int 2],
                 Except.ok [DataType.Int 3]] } }

theorem iter_rows_skip_spec_witness :
    ∃ all, skipWitnessTable.iter_rows 0 = Except.ok all
      ∧ ([Except.ok [DataType.Int 2], Except.ok [DataType.Int 3]] :
          List RowResult).length = all.length - 1
      ∧ ∀ i : Nat,
          ([Except.ok [DataType.Int 2], Except.ok [DataType.Int 3]] :
            List RowResult)[i]? = all[1 + i]? :=
  iter_rows_skip_spec skipWitnessTable 1
    [Except.ok [DataType.Int 2], Except.ok [DataType.Int 3]] (by rfl)

/-- C3 counterexample: the claim renders the file stem lowercased, but the
code pushes the stem verbatim: on path `Main.xlsx` and name `Video` the
code yields `Main_video`, not `main_video`. -/
theorem make_django_style_table_name_cex :
    make_django_style_table_name "Main.xlsx" "Video" = "Main_video"
    ∧ make_django_style_table_name "Main.xlsx" "Video"
        ≠ strToLowercase ((pathFileStem "Main.xlsx").getD "") ++ "_"
          ++ strToLowercase "Video" := by
  constructor
  · rfl
  · decide

/-- C3 amended: `make_django_style_table_name` returns the (unchanged) file
stem of the path, an underscore, then the lowercased name; it is
independent of the original casing of the name, and a path with no stem
yields `_` followed by the lowercased name. -/
theorem make_django_style_table_name_spec :
    (∀ p n, make_django_style_table_name p n
        = ((pathFileStem p).getD "") ++ "_" ++ strToLowercase n)
    ∧ (∀ p n m, strToLowercase n = strToLowercase m →
        make_django_style_table_name p n = make_django_style_table_name p m)
    ∧ (∀ p n, pathFileStem p = none →
        make_django_style_table_name p n = "_" ++ strToLowercase n)
    ∧ pathFileStem "" = none ∧ pathFileStem "/" = none := by
  refine ⟨fun p n => rfl, ?_, ?_, rfl, rfl⟩
  · intro p n m h
    rw [make_django_style_table_name, make_django_style_table_name, h]
  · intro p n h
    rw [make_django_style_table_name, h]
    rfl

theorem make_django_style_table_name_spec_witness :
    make_django_style_table_name "dir/Main.xlsx" "ViDeo"
      = make_django_style_table_name "dir/Main.xlsx" "video"
    ∧ make_django_style_table_name "/" "Video" = "_" ++ strToLowercase "Video" :=
  ⟨make_django_style_table_name_spec.2.1 "dir/Main.xlsx" "ViDeo" "video"
      (by decide),
   make_django_style_table_name_spec.2.2.1 "/" "Video" (by decide)⟩

theorem tableNew_ok (s : String) (r : Range) (t : Table)
    (h : Table.new s r = Except.ok t) :
    t.name = String.mk (s.toList.filter
      (fun c => charIsAscii c && c ≠ '(' && c ≠ ')'))
    ∧ t.fields = (firstRowCells r).filterMap textCell := by
  obtain ⟨be, rs⟩ := r
  cases be with
  | some e => simp [Table.new, from_range] at h
  | none =>
    cases rs with
    | nil =>
      simp [Table.new, from_range] at h
      subst h
      simp [firstRowCells]
    | cons r0 rest =>
      cases r0 with
      | error e => simp [Table.new, from_range] at h
      | ok row =>
        simp [Table.new, from_range] at h
        subst h
        simp [firstRowCells]

/-- C5: when `Table.new s r` succeeds, the table's fields are exactly the
Text-valued cells of row 0 of `r` in column order (non-Text cells
omitted), and its name is `s` with every non-ASCII character and every
literal parenthesis removed, with no other normalization. -/
theorem table_new_spec (s : String) (r : Range) (t : Table)
    (h : Table.new s r = Except.ok t) :
    t.name = String.mk (s.toList.filter
      (fun c => charIsAscii c && c ≠ '(' && c ≠ ')'))
    ∧ t.fields = (firstRowCells r).filterMap textCell :=
  tableNew_ok s r t h

/-- A concrete range whose header row mixes Text and non-Text cells. -/
def newWitnessRange : Range :=
  { buildErr := none
    rows := [Except.ok [DataType.String "id", DataType.Int 3,
               DataType.String "x"],
             Except.error "bad"] }

/-- The table `Table.new` produces from `newWitnessRange` under a sheet
name holding a non-ASCII character and parentheses. -/
def newWitnessTable : Table :=
  { name := "Abc", fields := ["id", "x"], range := newWitnessRange }

theorem table_new_spec_witness :
    newWitnessTable.name = String.mk ("Ab(é)c".toList.filter
      (fun c => charIsAscii c && c ≠ '(' && c ≠ ')'))
    ∧ newWitnessTable.fields
        = (firstRowCells newWitnessRange).filterMap textCell :=
  table_new_spec "Ab(é)c" newWitnessRange newWitnessTable (by decide)

/-- C6: `to_django_style_fields` rewrites, in one pass, every field other
than the literal `id` to `c_` followed by the original field and leaves
`id` alone; on `[id, title, year]` it yields `[id, c_title, c_year]`. -/
theorem to_django_style_fields_spec :
    (∀ t : Table, (t.to_django_style_fields).fields
        = t.fields.map (fun f => if f = "id" then f else "c_" ++ f))
    ∧ (Table.to_django_style_fields
        { name := "x", fields := ["id", "title", "year"],
          range := emptyRange }).fields
      = ["id", "c_title", "c_year"] := by
  constructor
  · intro t
    refine List.map_eq_map_iff.mpr ?_
    intro f _
    by_cases hf : f = "id" <;> simp [hf]
  · rfl

/-- C7: `check_table_exists` succeeds exactly when the
`SHOW TABLES LIKE` lookup returns a row; an empty result yields the
sentinel server error (state `-1`, code `99`) whose message names the
table; a query failure propagates unchanged. -/
theorem check_table_exists_spec (tn : String) (pool : Pool) :
    (check_table_exists tn pool = Except.ok ()
      ↔ ∃ row, pool.first_exec ("SHOW TABLES LIKE \"" ++ tn ++ "\"")
          = Except.ok (some row))
    ∧ (pool.first_exec ("SHOW TABLES LIKE \"" ++ tn ++ "\"")
          = Except.ok none →
        check_table_exists tn pool = Except.error (MySQLError.server "-1"
          ("Table '" ++ tn ++ "' doesn't exist") 99))
    ∧ (∀ e, pool.first_exec ("SHOW TABLES LIKE \"" ++ tn ++ "\"")
          = Except.error e →
        check_table_exists tn pool = Except.error e) := by
  cases hq : pool.first_exec ("SHOW TABLES LIKE \"" ++ tn ++ "\"") with
  | error e =>
    refine ⟨⟨fun hok => ?_, fun hrow => ?_⟩, fun hnone => ?_, fun e' he' => ?_⟩
    · simp [check_table_exists, hq] at hok
    · obtain ⟨row, hrow⟩ := hrow
      simp [hq] at hrow
    · simp [hq] at hnone
    · simp [hq] at he'
      simp [check_table_exists, hq, he']
  | ok res =>
    cases res with
    | none =>
      refine ⟨⟨fun hok => ?_, fun hrow => ?_⟩, fun _ => ?_, fun e' he' => ?_⟩
      · simp [check_table_exists, hq] at hok
      · obtain ⟨row, hrow⟩ := hrow
        simp [hq] at hrow
      · simp [check_table_exists, hq]
      · simp [hq] at he'
    | some row =>
      refine ⟨⟨fun _ => ⟨row, rfl⟩, fun _ => ?_⟩, fun hnone => ?_,
        fun e' he' => ?_⟩
      · simp [check_table_exists, hq]
      · simp [hq] at hnone
      · simp [hq] at he'

/-- A pool whose lookup finds the table. -/
def poolTableFound : Pool :=
  { prep_exec := fun _ => Except.ok ()
    first_exec := fun _ => Except.ok (some []) }

/-- A pool whose lookup returns no row. -/
def poolTableMissing : Pool :=
  { prep_exec := fun _ => Except.ok ()
    first_exec := fun _ => Except.ok none }

/-- A pool whose lookup fails at the transport level. -/
def poolDown : Pool :=
  { prep_exec := fun _ => Except.ok ()
    first_exec := fun _ => Except.error (MySQLError.other "connection refused") }

theorem check_table_exists_spec_witness :
    check_table_exists "main_video" poolTableFound = Except.ok ()
    ∧ check_table_exists "haha" poolTableMissing
        = Except.error (MySQLError.server "-1"
            ("Table '" ++ "haha" ++ "' doesn't exist") 99)
    ∧ check_table_exists "t" poolDown
        = Except.error (MySQLError.other "connection refused") :=
  ⟨(check_table_exists_spec "main_video" poolTableFound).1.mpr ⟨[], rfl⟩,
   (check_table_exists_spec "haha" poolTableMissing).2.1 rfl,
   (check_table_exists_spec "t" poolDown).2.2 _ rfl⟩

theorem run_insert_rows_ok_count (pool : Pool) (tn : String)
    (fs : List String) :
    ∀ (rows : List RowResult) (c n : Nat),
      run_insert_rows pool tn fs c rows = Except.ok n →
      n = c + rows.countP (fun x => rowOk x)
  | [], c, n => by
    intro h
    simp [run_insert_rows] at h
    simp [h]
  | Except.error e :: rest, c, n => by
    intro h
    rw [run_insert_rows] at h
    have := run_insert_rows_ok_count pool tn fs rest c n h
    simp [List.countP_cons, rowOk, this]
  | Except.ok r :: rest, c, n => by
    intro h
    rw [run_insert_rows] at h
    cases hp : pool.prep_exec (make_insert_sql tn fs r) with
    | error e => rw [hp] at h; exact absurd h (by simp)
    | ok u =>
      rw [hp] at h
      have := run_insert_rows_ok_count pool tn fs rest (c + 1) n h
      simp [List.countP_cons, rowOk, this]
      omega

/-- C4: in `import_table_to_database`, a row that fails to deserialize is
skipped without affecting the count or aborting the loop; a failing INSERT
aborts the loop and the import, surfacing as the database side of the
error union; a successful import returns the count of inserted rows
together with the resolved table name. -/
theorem import_table_error_handling :
    (∀ (pool : Pool) (tn : String) (fs : List String) (c : Nat)
        (pre post : List RowResult) (e : CalaError),
      run_insert_rows pool tn fs c (pre ++ Except.error e :: post)
        = run_insert_rows pool tn fs c (pre ++ post))
    ∧ (∀ (pool : Pool) (tn : String) (fs : List String) (c : Nat)
        (r : List DataType) (rest : List RowResult) (e : MySQLError),
        pool.prep_exec (make_insert_sql tn fs r) = Except.error e →
        run_insert_rows pool tn fs c (Except.ok r :: rest) = Except.error e)
    ∧ (∀ (opts : Opts) (pool : Pool) (table : Table) (n : Nat) (tn : String),
        import_table_to_database opts pool table = Except.ok (n, tn) →
        tn = resolvedTableName opts table
        ∧ ∃ rows, table.iter_rows opts.skip = Except.ok rows
            ∧ n = rows.countP (fun x => rowOk x))
    ∧ (∀ (opts : Opts) (pool : Pool) (table : Table)
        (rows : List RowResult) (e : MySQLError),
        table.iter_rows opts.skip = Except.ok rows →
        check_table_exists (resolvedTableName opts table) pool
          = Except.ok () →
        opts.clear = false →
        run_insert_rows pool (resolvedTableName opts table) table.fields 0
            rows = Except.error e →
        import_table_to_database opts pool table
          = Except.error (Error.MySQLError e)) := by
  refine ⟨?_, ?_, ?_, ?_⟩
  · intro pool tn fs c pre post e
    induction pre generalizing c with
    | nil => rw [List.nil_append, List.nil_append, run_insert_rows]
    | cons x rest ih =>
      cases x with
      | error e' =>
        rw [List.cons_append, List.cons_append, run_insert_rows,
          run_insert_rows]
        exact ih c
      | ok r =>
        rw [List.cons_append, List.cons_append, run_insert_rows,
          run_insert_rows]
        cases hp : pool.prep_exec (make_insert_sql tn fs r) with
        | error e' => rfl
        | ok u => exact ih (c + 1)
  · intro pool tn fs c r rest e hp
    rw [run_insert_rows, hp]
  · intro opts pool table n tn h
    rw [import_table_to_database] at h
    cases hc : check_table_exists (resolvedTableName opts table) pool with
    | error e => simp [hc] at h
    | ok u =>
      cases hd : (if opts.clear then
          pool.prep_exec ("DELETE FROM " ++ resolvedTableName opts table)
        else Except.ok ()) with
      | error e => simp [hc, hd] at h
      | ok u' =>
        cases hr : table.iter_rows opts.skip with
        | error e => simp [hc, hd, hr] at h
        | ok rows =>
          cases hrun : run_insert_rows pool (resolvedTableName opts table)
              table.fields 0 rows with
          | error e => simp [hc, hd, hr, hrun] at h
          | ok count =>
            simp [hc, hd, hr, hrun] at h
            obtain ⟨hn, htn⟩ := h
            refine ⟨htn.symm, rows, rfl, ?_⟩
            have := run_insert_rows_ok_count pool
              (resolvedTableName opts table) table.fields rows 0 count hrun
            omega
  · intro opts pool table rows e hrows hcheck hclear hrun
    simp [import_table_to_database, hcheck, hclear, hrows, hrun]

/-- A pool that accepts every statement. -/
def poolAllOk : Pool :=
  { prep_exec := fun _ => Except.ok ()
    first_exec := fun _ => Except.ok (some []) }

/-- A pool whose lookup succeeds but whose statements all fail. -/
def poolInsertFails : Pool :=
  { prep_exec := fun _ => Except.error (MySQLError.other "boom")
    first_exec := fun _ => Except.ok (some []) }

/-- A one-data-row table for exercising the import path. -/
def importWitnessTable : Table :=
  { name := "t", fields := ["a"]
    range := { buildErr := none, rows := [Except.ok [DataType.Int 1]] } }

/-- Options with no clearing, no skipping and no naming convention. -/
def importWitnessOpts : Opts :=
  { excel := "f.xlsx", clear := false, skip := 0, django_style := false }

theorem import_table_error_handling_witness :
    (run_insert_rows poolAllOk "t" ["a"] 0
        ([] ++ Except.error "bad" :: [Except.ok [DataType.Int 1]])
      = run_insert_rows poolAllOk "t" ["a"] 0
          ([] ++ [Except.ok [DataType.Int 1]]))
    ∧ run_insert_rows poolInsertFails "t" ["a"] 5
        [Except.ok [DataType.Int 1]]
      = Except.error (MySQLError.other "boom")
    ∧ ("t" = resolvedTableName importWitnessOpts importWitnessTable
        ∧ ∃ rows, importWitnessTable.iter_rows importWitnessOpts.skip
              = Except.ok rows
            ∧ 1 = rows.countP (fun x => rowOk x))
    ∧ import_table_to_database importWitnessOpts poolInsertFails
        importWitnessTable
      = Except.error (Error.MySQLError (MySQLError.other "boom")) :=
  ⟨import_table_error_handling.1 poolAllOk "t" ["a"] 0 []
      [Except.ok [DataType.Int 1]] "bad",
   import_table_error_handling.2.1 poolInsertFails "t" ["a"] 5
      [DataType.Int 1] [] (MySQLError.other "boom") rfl,
   import_table_error_handling.2.2.1 importWitnessOpts poolAllOk
      importWitnessTable 1 "t" (by rfl),
   import_table_error_handling.2.2.2 importWitnessOpts poolInsertFails
      importWitnessTable [Except.ok [DataType.Int 1]]
      (MySQLError.other "boom") rfl rfl rfl rfl⟩

theorem parseSheets_names (wb : Workbook) :
    ∀ (names : List String) (l : List Table),
      parseSheets wb names = Except.ok l →
      l.map Table.name
        = (names.filter (fun s => (resolvedRange wb s).isSome)).map
            (fun s => String.mk (s.toList.filter
              (fun c => charIsAscii c && c ≠ '(' && c ≠ ')')))
  | [], l => by
    intro h
    simp [parseSheets] at h
    simp [h]
  | s :: rest, l => by
    intro h
    rw [parseSheets] at h
    cases hw : wb.worksheet_range s with
    | none =>
      simp only [hw] at h
      simpa [resolvedRange, hw] using parseSheets_names wb rest l h
    | some res =>
      cases res with
      | error e =>
        simp only [hw] at h
        simpa [resolvedRange, hw] using parseSheets_names wb rest l h
      | ok range =>
        simp only [hw] at h
        cases ht : Table.new s range with
        | error e => simp [ht] at h
        | ok t =>
          simp only [ht] at h
          cases hrest : parseSheets wb rest with
          | error e => simp [hrest] at h
          | ok ts =>
            simp only [hrest] at h
            have hl : t :: ts = l := by injection h
            subst hl
            have hname := (tableNew_ok s range t ht).1
            simp [resolvedRange, hw, hname,
              parseSheets_names wb rest ts hrest]

/-- C8: unresolvable sheets are skipped without failing the parse; a
`Table.new` failure on a resolved sheet aborts the whole parse; a
successful parse yields one table per resolvable sheet, in sheet order,
named by the sanitized sheet name; a workbook open failure propagates. -/
theorem parse_excel_spec :
    (∀ (wb : Workbook) (s : String) (rest : List String),
      resolvedRange wb s = none →
      parseSheets wb (s :: rest) = parseSheets wb rest)
    ∧ (∀ (wb : Workbook) (s : String) (rest : List String) (r : Range)
        (e : CalaError),
        resolvedRange wb s = some r → Table.new s r = Except.error e →
        parseSheets wb (s :: rest) = Except.error e)
    ∧ (∀ (wb : Workbook) (names : List String) (l : List Table),
        parseSheets wb names = Except.ok l →
        l.map Table.name
          = (names.filter (fun s => (resolvedRange wb s).isSome)).map
              (fun s => String.mk (s.toList.filter
                (fun c => charIsAscii c && c ≠ '(' && c ≠ ')'))))
    ∧ (∀ (ow : String → Except CalaError Workbook) (p : String)
        (e : CalaError),
        ow p = Except.error e → parse_excel ow p = Except.error e)
    ∧ (∀ (ow : String → Except CalaError Workbook) (p : String)
        (wb : Workbook),
        ow p = Except.ok wb →
        parse_excel ow p = parseSheets wb wb.sheet_names) := by
  refine ⟨?_, ?_, fun wb names l h => parseSheets_names wb names l h, ?_, ?_⟩
  · intro wb s rest h
    rw [parseSheets]
    cases hw : wb.worksheet_range s with
    | none => rfl
    | some res =>
      cases res with
      | error e => rfl
      | ok range => simp [resolvedRange, hw] at h
  · intro wb s rest r e hres hnew
    rw [parseSheets]
    cases hw : wb.worksheet_range s with
    | none => simp [resolvedRange, hw] at hres
    | some res =>
      cases res with
      | error e' => simp [resolvedRange, hw] at hres
      | ok range =>
        simp only [resolvedRange, hw, Option.some.injEq] at hres
        subst hres
        simp [hnew]
  · intro ow p e h
    simp [parse_excel, h]
  · intro ow p wb h
    simp [parse_excel, h]

/-- The range behind the resolvable sheet `S1` of the witness workbook. -/
def rangeS1 : Range :=
  { buildErr := none, rows := [Except.ok [DataType.String "h"]] }

/-- The range behind the resolvable sheet `S2(a)` of the witness workbook. -/
def rangeS2 : Range :=
  { buildErr := none, rows := [] }

/-- A range whose first row fails to deserialize, so `Table.new` fails. -/
def rangeBad : Range :=
  { buildErr := none, rows := [Except.error "badrow"] }

/-- A workbook with two resolvable sheets, one unresolvable sheet, and one
sheet whose table construction fails. -/
def witnessWorkbook : Workbook :=
  { sheet_names := ["S1", "Sx", "S2(a)"]
    worksheet_range := fun s =>
      if s = "S1" then some (Except.ok rangeS1)
      else if s = "S2(a)" then some (Except.ok rangeS2)
      else if s = "B" then some (Except.ok rangeBad)
      else none }

theorem parse_excel_spec_witness :
    parseSheets witnessWorkbook ["Sx"] = parseSheets witnessWorkbook []
    ∧ parseSheets witnessWorkbook ["B"] = Except.error "badrow"
    ∧ ([{ name := "S1", fields := ["h"], range := rangeS1 },
        { name := "S2a", fields := [], range := rangeS2 }] :
          List Table).map Table.name
      = ((["S1", "Sx", "S2(a)"].filter
          (fun s => (resolvedRange witnessWorkbook s).isSome)).map
        (fun s => String.mk (s.toList.filter
          (fun c => charIsAscii c && c ≠ '(' && c ≠ ')'))))
    ∧ parse_excel (fun _ => Except.error "nofile") "main.xlsx"
        = Except.error "nofile"
    ∧ parse_excel (fun _ => Except.ok witnessWorkbook) "main.xlsx"
        = parseSheets witnessWorkbook witnessWorkbook.sheet_names :=
  ⟨parse_excel_spec.1 witnessWorkbook "Sx" [] (by rfl),
   parse_excel_spec.2.1 witnessWorkbook "B" [] rangeBad "badrow"
     (by rfl) (by rfl),
   parse_excel_spec.2.2.1 witnessWorkbook ["S1", "Sx", "S2(a)"]
     [{ name := "S1", fields := ["h"], range := rangeS1 },
      { name := "S2a", fields := [], range := rangeS2 }] (by rfl),
   parse_excel_spec.2.2.2.1 (fun _ => Except.error "nofile") "main.xlsx"
     "nofile" rfl,
   parse_excel_spec.2.2.2.2 (fun _ => Except.ok witnessWorkbook) "main.xlsx"
     witnessWorkbook rfl⟩

theorem c_field_ne_id (f : String) : "c_" ++ f ≠ "id" := by
  intro h
  have h2 := congrArg String.length h
  rw [String.length_append] at h2
  have hc : ("c_" : String).length = 2 := rfl
  have hid : ("id" : String).length = 2 := rfl
  rw [hc, hid] at h2
  have h4 : f.length = 0 := by omega
  obtain ⟨data⟩ := f
  cases data with
  | nil => exact absurd h (by decide)
  | cons c cs => simp [String.length] at h4

theorem c_c_field_ne (f : String) : "c_" ++ ("c_" ++ f) ≠ "c_" ++ f := by
  intro h
  have h2 := congrArg String.length h
  simp only [String.length_append] at h2
  have hc : ("c_" : String).length = 2 := rfl
  rw [hc] at h2
  omega

/-- C10: `to_django_style_fields` is not idempotent: on a table holding any
field other than the literal `id`, applying it twice differs from applying
it once (the second pass re-prefixes already-prefixed fields), while a
field equal to `id` stays `id` under every application; on the single
field `title`, two applications yield `c_c_title`. -/
theorem to_django_style_fields_not_idempotent :
    (∀ (t : Table) (f : String), f ∈ t.fields → f ≠ "id" →
      ((t.to_django_style_fields).to_django_style_fields).fields
        ≠ (t.to_django_style_fields).fields)
    ∧ (∀ (t : Table) (i : Nat), t.fields[i]? = some "id" →
        (t.to_django_style_fields).fields[i]? = some "id")
    ∧ ((Table.to_django_style_fields (Table.to_django_style_fields
          { name := "x", fields := ["title"], range := emptyRange })).fields
        = ["c_c_title"]) := by
  refine ⟨?_, ?_, rfl⟩
  · intro t f hf hne hEq
    simp only [Table.to_django_style_fields] at hEq
    rw [List.map_map] at hEq
    have hstep := List.map_eq_map_iff.mp hEq f hf
    simp only [Function.comp] at hstep
    rw [if_pos hne, if_pos (c_field_ne_id f)] at hstep
    exact c_c_field_ne f hstep
  · intro t i h
    simp only [Table.to_django_style_fields]
    rw [List.getElem?_map, h]
    simp

/-- A table whose fields mix the exempt `id` with ordinary fields. -/
def djangoWitnessTable : Table :=
  { name := "x", fields := ["id", "title", "year"], range := emptyRange }

theorem to_django_style_fields_not_idempotent_witness :
    ((djangoWitnessTable.to_django_style_fields).to_django_style_fields).fields
      ≠ (djangoWitnessTable.to_django_style_fields).fields
    ∧ (djangoWitnessTable.to_django_style_fields).fields[0]? = some "id" :=
  ⟨to_django_style_fields_not_idempotent.1 djangoWitnessTable "title"
      (by decide) (by decide),
   to_django_style_fields_not_idempotent.2.1 djangoWitnessTable 0 (by rfl)⟩

end ExcelToSql
